import Mathlib

/-!
Shallow embedding of the podstack backend (src/server/models.py and
src/server/app.py): a Flask application with session login via flask_login,
a newsletter catalog, and per-user saved-newsletter bookmarks.

Conventions of the embedding:
* Each SQLAlchemy model becomes a structure whose fields are the declared
  columns; the database is lists of rows.
* `DateTime` columns are modelled as `Nat` timestamps.
* The flask_login session is `Option Nat`: `none` is the Anonymous session,
  `some uid` a session whose cookie stores user id `uid`.
* werkzeug's `check_password_hash` is an abstract boolean parameter
  `chk stored candidate` threaded through `login`.
* Python attribute lookup for the `to_dict` method is modelled by membership
  in the list of attributes each model class defines; none of the four model
  classes in models.py defines `to_dict`, so the lookup raises
  `AttributeError` (an `Except.error`).
* flask_login's `login_required` with no `login_view` configured rejects an
  unauthenticated request by `abort(401)`, which produces the framework's
  default HTML error page, not an application JSON body; this is modelled by
  `Body.htmlError`.
-/

namespace Podstack

/-- models.py `User`: columns id, username, email, password (the stored
hash), avatar_url, name, created_at, provider, provider_id. -/
structure User where
  id : Nat
  username : String
  email : String
  password : String
  avatar_url : Option String
  name : Option String
  created_at : Nat
  provider : Option String
  provider_id : Option String
deriving Repr, DecidableEq

/-- models.py `Category`: columns id, name, description. -/
structure Category where
  id : Nat
  name : String
  description : Option String
deriving Repr, DecidableEq

/-- models.py `Newsletter`: columns id, title, publisher, description,
image_url, audio_url, duration, category_id, published_at, featured. -/
structure Newsletter where
  id : Nat
  title : String
  publisher : String
  description : String
  image_url : String
  audio_url : String
  duration : Nat
  category_id : Nat
  published_at : Nat
  featured : Bool
deriving Repr, DecidableEq

/-- models.py `UserNewsletter` (the bookmark association): columns id,
user_id, newsletter_id, saved_at. -/
structure UserNewsletter where
  id : Nat
  user_id : Nat
  newsletter_id : Nat
  saved_at : Nat
deriving Repr, DecidableEq

/-- The relational store: one list of rows per model class. -/
structure DB where
  users : List User
  categories : List Category
  newsletters : List Newsletter
  user_newsletters : List UserNewsletter
deriving Repr, DecidableEq

/-- The flask_login session: `none` is Anonymous, `some uid` stores the
bound user id. -/
abbrev Session := Option Nat

/-- The attribute names class `User` defines in models.py (its columns). -/
def userAttrs : List String :=
  ["id", "username", "email", "password", "avatar_url", "name",
   "created_at", "provider", "provider_id"]

/-- The attribute names class `Category` defines in models.py. -/
def categoryAttrs : List String := ["id", "name", "description"]

/-- The attribute names class `Newsletter` defines in models.py. -/
def newsletterAttrs : List String :=
  ["id", "title", "publisher", "description", "image_url", "audio_url",
   "duration", "category_id", "published_at", "featured"]

/-- The attribute names class `UserNewsletter` defines in models.py. -/
def userNewsletterAttrs : List String :=
  ["id", "user_id", "newsletter_id", "saved_at"]

/-- A Python exception escaping a handler. -/
inductive PyExc where
  | attributeError (cls attr : String)
deriving Repr, DecidableEq

/-- A response body: a JSON object with string fields, a JSON array of
serialized objects, or the framework's default HTML error page. -/
inductive Body where
  | jsonObj (fields : List (String × String))
  | jsonArr (items : List (List (String × String)))
  | htmlError (status : Nat)
deriving Repr, DecidableEq

/-- Whether a body is a JSON object carrying a `message` field. -/
def Body.isJsonWithMessage : Body → Bool
  | .jsonObj fields => fields.any (fun f => f.1 == "message")
  | _ => false

/-- `x.to_dict()` on a model instance: Python looks `to_dict` up among the
attributes the class defines. No model class in models.py defines it, so
the lookup raises `AttributeError`; the `.ok` branch is unreachable and its
value is an arbitrary placeholder. -/
def to_dict (attrs : List String) (cls : String) : Except PyExc Body :=
  if attrs.contains "to_dict" then Except.ok (Body.jsonObj [])
  else Except.error (PyExc.attributeError cls "to_dict")

/-- `[x.to_dict() for x in xs]`: an empty list serializes to the empty JSON
array without calling `to_dict`; a nonempty list evaluates `to_dict` on its
first element (which raises, see `to_dict`). -/
def to_dict_each {α : Type} (attrs : List String) (cls : String)
    (xs : List α) : Except PyExc Body :=
  match xs with
  | [] => Except.ok (Body.jsonArr [])
  | _ :: _ =>
    match to_dict attrs cls with
    | Except.ok _ => Except.ok (Body.jsonArr [])
    | Except.error e => Except.error e

deriving instance DecidableEq for Except

/-- Result of dispatching one request: the store and session afterwards and
the response, where `Except.error` is an exception escaping the handler. -/
structure HandlerResult where
  db : DB
  session : Session
  response : Except PyExc (Nat × Body)
deriving Repr, DecidableEq

/-- app.py `load_user`: `User.query.get(user_id)`, primary-key lookup. -/
def load_user (db : DB) (uid : Nat) : Option User :=
  db.users.find? (fun u => u.id == uid)

/-- flask_login's `current_user` resolved against the session: the user the
session's stored id loads, `none` when Anonymous or when the id loads no
user (then `current_user` is the anonymous user). -/
def currentUserOpt (db : DB) (sess : Session) : Option User :=
  match sess with
  | none => none
  | some uid => load_user db uid

/-- `User.query.filter_by(email=...).first()` in the login handler. -/
def findByEmail (users : List User) (email : String) : Option User :=
  users.find? (fun u => u.email == email)

/-- The response flask_login's `login_required` produces for an
unauthenticated request when no `login_view` is configured: `abort(401)`,
the framework's default HTML 401 page. -/
def unauthorizedResponse : Nat × Body := (401, Body.htmlError 401)

/-- app.py `login` (POST /api/auth/login): look the user up by email; when
found and the password hash checks, `login_user` binds the session to the
user's id and the handler returns `jsonify(user.to_dict())`; otherwise a
401 `Invalid credentials` JSON body and the session is left as it was.
`chk` is werkzeug's `check_password_hash`. -/
def login (chk : String → String → Bool) (db : DB) (sess : Session)
    (email password : String) : HandlerResult :=
  match findByEmail db.users email with
  | some user =>
    if chk user.password password then
      { db := db, session := some user.id
        response := (to_dict userAttrs "User").map (fun b => (200, b)) }
    else
      { db := db, session := sess
        response :=
          Except.ok (401, Body.jsonObj [("message", "Invalid credentials")]) }
  | none =>
    { db := db, session := sess
      response :=
        Except.ok (401, Body.jsonObj [("message", "Invalid credentials")]) }

/-- app.py `logout` (/api/auth/logout, guarded by `login_required`): for an
authenticated session, `logout_user()` clears the session and the handler
returns 200 `Logged out`; an unauthenticated request is rejected by the
guard before the handler runs. -/
def logout (db : DB) (sess : Session) : HandlerResult :=
  match currentUserOpt db sess with
  | none => { db := db, session := sess, response := Except.ok unauthorizedResponse }
  | some _ =>
    { db := db, session := none
      response := Except.ok (200, Body.jsonObj [("message", "Logged out")]) }

/-- app.py `get_current_user` (/api/auth/me, guarded by `login_required`):
returns `jsonify(current_user.to_dict())`. -/
def get_current_user (db : DB) (sess : Session) : HandlerResult :=
  match currentUserOpt db sess with
  | none => { db := db, session := sess, response := Except.ok unauthorizedResponse }
  | some _ =>
    { db := db, session := sess
      response := (to_dict userAttrs "User").map (fun b => (200, b)) }

/-- app.py `get_featured_newsletters` (/api/newsletters/featured):
`Newsletter.query.filter_by(featured=True).all()`, then serializes each. -/
def get_featured_newsletters (db : DB) (sess : Session) : HandlerResult :=
  let ns := db.newsletters.filter (fun n => n.featured)
  { db := db, session := sess
    response := (to_dict_each newsletterAttrs "Newsletter" ns).map (fun b => (200, b)) }

/-- Whether a list of newsletters is ordered by `published_at` descending. -/
def sortedByPublishedDesc : List Newsletter → Bool
  | [] => true
  | [_] => true
  | a :: b :: rest =>
    (b.published_at ≤ a.published_at) && sortedByPublishedDesc (b :: rest)

/-- The lists of rows the storage layer may hand back for
`Newsletter.query.order_by(Newsletter.published_at.desc()).limit(10)`:
SQL `ORDER BY published_at DESC` constrains only the key order, so any
reordering of the table that is sorted by `published_at` descending,
truncated to 10, is a possible result; no secondary key is applied. -/
def recentQueryResult (db : DB) (out : List Newsletter) : Prop :=
  ∃ l : List Newsletter, List.Perm l db.newsletters ∧
    sortedByPublishedDesc l = true ∧ out = l.take 10

/-- app.py `get_recent_newsletters` (/api/newsletters/recent) applied to
the list `out` the storage layer returned for its query (any `out` with
`recentQueryResult db out`): serializes each row. -/
def get_recent_newsletters (db : DB) (sess : Session)
    (out : List Newsletter) : HandlerResult :=
  { db := db, session := sess
    response := (to_dict_each newsletterAttrs "Newsletter" out).map (fun b => (200, b)) }

/-- app.py `get_categories` (/api/categories): `Category.query.all()`,
then serializes each. -/
def get_categories (db : DB) (sess : Session) : HandlerResult :=
  { db := db, session := sess
    response := (to_dict_each categoryAttrs "Category" db.categories).map (fun b => (200, b)) }

/-- `UserNewsletter.query.filter_by(user_id=...).all()` in the GET
/api/user/newsletters handler. -/
def listForUser (db : DB) (uid : Nat) : List UserNewsletter :=
  db.user_newsletters.filter (fun un => un.user_id == uid)

/-- app.py `get_user_newsletters` (GET /api/user/newsletters, guarded by
`login_required`): the caller's bookmarks, serialized. -/
def get_user_newsletters (db : DB) (sess : Session) : HandlerResult :=
  match currentUserOpt db sess with
  | none => { db := db, session := sess, response := Except.ok unauthorizedResponse }
  | some u =>
    { db := db, session := sess
      response :=
        (to_dict_each userNewsletterAttrs "UserNewsletter" (listForUser db u.id)).map
          (fun b => (200, b)) }

/-- The primary key the store assigns to a freshly inserted
`UserNewsletter` row (autoincrement: one more than the largest id). -/
def nextBookmarkId (db : DB) : Nat :=
  1 + (db.user_newsletters.map (fun un => un.id)).foldr max 0

/-- app.py `save_newsletter` (POST /api/user/newsletters, guarded by
`login_required`): builds `UserNewsletter(user_id=current_user.id,
newsletter_id=data['newsletterId'])` with `saved_at` defaulting to now,
commits it — with no check that the newsletter exists — and then returns
`jsonify(user_newsletter.to_dict())`. -/
def save_newsletter (db : DB) (sess : Session) (now newsletterId : Nat) :
    HandlerResult :=
  match currentUserOpt db sess with
  | none => { db := db, session := sess, response := Except.ok unauthorizedResponse }
  | some u =>
    let row : UserNewsletter :=
      { id := nextBookmarkId db, user_id := u.id
        newsletter_id := newsletterId, saved_at := now }
    { db := { db with user_newsletters := db.user_newsletters ++ [row] }
      session := sess
      response := (to_dict userNewsletterAttrs "UserNewsletter").map (fun b => (200, b)) }

/-- One request to the application, with the data a handler reads from
outside the store attached (credentials, the storage ordering for the
recent query, the clock for `saved_at`). -/
inductive Op where
  | loginOp (email password : String)
  | logoutOp
  | meOp
  | featuredOp
  | recentOp (out : List Newsletter)
  | categoriesOp
  | listBookmarksOp
  | saveOp (now newsletterId : Nat)
deriving Repr, DecidableEq

/-- Store plus session: the state one client's request sequence evolves. -/
structure AppState where
  db : DB
  session : Session
deriving Repr, DecidableEq

/-- Dispatch one request to its handler. -/
def runOp (chk : String → String → Bool) (st : AppState) : Op → HandlerResult
  | Op.loginOp email password => login chk st.db st.session email password
  | Op.logoutOp => logout st.db st.session
  | Op.meOp => get_current_user st.db st.session
  | Op.featuredOp => get_featured_newsletters st.db st.session
  | Op.recentOp out => get_recent_newsletters st.db st.session out
  | Op.categoriesOp => get_categories st.db st.session
  | Op.listBookmarksOp => get_user_newsletters st.db st.session
  | Op.saveOp now newsletterId => save_newsletter st.db st.session now newsletterId

/-! Concrete rows used to instantiate the theorems on executable data. -/

/-- A concrete hash checker standing in for werkzeug: the stored value is
the candidate prefixed with a scheme tag. -/
def sampleChk : String → String → Bool :=
  fun stored candidate => stored == "pbkdf2:" ++ candidate

/-- A stored user whose password hash matches candidate `pw123`. -/
def alice : User :=
  { id := 1, username := "alice", email := "alice@x.com"
    password := "pbkdf2:pw123", avatar_url := none, name := none
    created_at := 0, provider := none, provider_id := none }

/-- A second stored user. -/
def bob : User :=
  { id := 2, username := "bob", email := "bob@x.com"
    password := "pbkdf2:pw456", avatar_url := none, name := none
    created_at := 0, provider := none, provider_id := none }

/-- A concrete category row. -/
def cat1 : Category := { id := 1, name := "Tech", description := none }

/-- A featured newsletter. -/
def n1 : Newsletter :=
  { id := 1, title := "A", publisher := "P", description := "d"
    image_url := "i", audio_url := "a", duration := 60, category_id := 1
    published_at := 100, featured := true }

/-- A newsletter with the same `published_at` as `n1`. -/
def n2 : Newsletter :=
  { id := 2, title := "B", publisher := "P", description := "d"
    image_url := "i", audio_url := "a", duration := 60, category_id := 1
    published_at := 100, featured := false }

/-- A bookmark of newsletter 1 by user 1. -/
def bm1 : UserNewsletter :=
  { id := 1, user_id := 1, newsletter_id := 1, saved_at := 50 }

/-- A populated store: two users, one category, two newsletters with equal
timestamps, one bookmark owned by user 1. -/
def sampleDB : DB :=
  { users := [alice, bob], categories := [cat1]
    newsletters := [n1, n2], user_newsletters := [bm1] }

/-- A store with a user but no newsletters and no bookmarks. -/
def dbNoNewsletters : DB :=
  { users := [alice], categories := [], newsletters := [], user_newsletters := [] }

/-! Helper lemmas about primary-key lookup. -/

/-- In a list of users with pairwise distinct ids (the primary-key
invariant of the `user` table), looking a member up by its own id finds
exactly it. -/
theorem find_id_self {l : List User} (h : (l.map (fun u => u.id)).Nodup)
    {w : User} (hw : w ∈ l) :
    l.find? (fun u => u.id == w.id) = some w := by
  induction l with
  | nil => cases hw
  | cons a t ih =>
    rw [List.map_cons, List.nodup_cons] at h
    rcases List.mem_cons.mp hw with rfl | hw'
    · rw [List.find?_cons]
      simp
    · have hne : (a.id == w.id) = false := by
        simp only [beq_eq_false_iff_ne, ne_eq]
        intro he
        exact h.1 (he ▸ List.mem_map_of_mem (fun u => u.id) hw')
      rw [List.find?_cons, hne]
      exact ih h.2 hw'

/-- Primary-key lookup of a stored user's own id returns that user. -/
theorem load_user_self (db : DB) (h : (db.users.map (fun u => u.id)).Nodup)
    {w : User} (hw : w ∈ db.users) : load_user db w.id = some w :=
  find_id_self h hw

/-- C1: with pairwise-distinct user ids, a login started from the
Anonymous session binds the session to a stored user — so that
`current_user` thereafter resolves to that user — exactly when the request
email finds that user by exact match and the candidate password's hash
checks against the stored hash; for every mismatched pair the handler
answers 401 `Invalid credentials` and the session stays Anonymous. -/
theorem claim_C1_login_iff (chk : String → String → Bool) (db : DB)
    (email password : String)
    (hids : (db.users.map (fun u => u.id)).Nodup) :
    (∀ u : User, findByEmail db.users email = some u →
        chk u.password password = true →
        (login chk db none email password).session = some u.id ∧
        currentUserOpt db (login chk db none email password).session = some u) ∧
    (∀ u : User,
        (login chk db none email password).session = some u.id →
        currentUserOpt db (login chk db none email password).session = some u →
        findByEmail db.users email = some u ∧ chk u.password password = true) ∧
    ((∀ u : User, findByEmail db.users email = some u →
        chk u.password password = false) →
      (login chk db none email password).response =
        Except.ok (401, Body.jsonObj [("message", "Invalid credentials")]) ∧
      (login chk db none email password).session = none) := by
  refine ⟨?_, ?_, ?_⟩
  · intro u hu hchk
    have hmem : u ∈ db.users := List.mem_of_find?_eq_some hu
    constructor
    · simp [login, hu, hchk]
    · simp [login, hu, hchk, currentUserOpt, load_user_self db hids hmem]
  · intro u hs hc
    cases hf : findByEmail db.users email with
    | none => simp [login, hf] at hs
    | some w =>
      by_cases hchk : chk w.password password
      · have hwid : w.id = u.id := by
          simp [login, hf, hchk] at hs
          exact hs
        have hload : load_user db w.id = some u := by
          have := hc
          simp [login, hf, hchk, currentUserOpt] at this
          exact this
        have humem : u ∈ db.users := List.mem_of_find?_eq_some hload
        have huid : u.id = w.id := by
          have := List.find?_some hload
          simpa using this
        have hwmem : w ∈ db.users := List.mem_of_find?_eq_some hf
        have huw : u = w :=
          List.inj_on_of_nodup_map hids humem hwmem huid
        subst huw
        exact ⟨rfl, by simpa using hchk⟩
      · simp [login, hf, hchk] at hs
  · intro hmm
    cases hf : findByEmail db.users email with
    | none => simp [login, hf]
    | some w =>
      have := hmm w hf
      simp [login, hf, this]

/-- Witness for C1 at concrete data: alice logs in with her password. -/
theorem claim_C1_login_iff_witness :
    (login sampleChk sampleDB none "alice@x.com" "pw123").session = some alice.id ∧
    currentUserOpt sampleDB
        (login sampleChk sampleDB none "alice@x.com" "pw123").session = some alice :=
  (claim_C1_login_iff sampleChk sampleDB "alice@x.com" "pw123" (by decide)).1
    alice (by decide) (by decide)

/-- C2 counterexample: on the Anonymous session the logout route does not
succeed — `login_required` rejects the request with the framework's 401
page before the handler runs — refuting that logout is a no-op success on
an already-Anonymous session. -/
theorem claim_C2_counterexample :
    (logout sampleDB none).response = Except.ok (401, Body.htmlError 401) ∧
    (logout sampleDB none).response ≠
      Except.ok (200, Body.jsonObj [("message", "Logged out")]) := by
  constructor
  · rfl
  · decide

/-- C2 amended: logout succeeds (200 `Logged out`) and clears the session
exactly when the session resolves to a stored user; on a session that does
not resolve (in particular the Anonymous one) the guard answers 401 and
leaves the session as it was; in every case `currentUser` right after
logout fails with the 401 guard response. -/
theorem claim_C2_logout (db : DB) (sess : Session) :
    (∀ u : User, currentUserOpt db sess = some u →
        (logout db sess).session = none ∧
        (logout db sess).response =
          Except.ok (200, Body.jsonObj [("message", "Logged out")])) ∧
    (currentUserOpt db sess = none →
        (logout db sess).response = Except.ok (401, Body.htmlError 401) ∧
        (logout db sess).session = sess) ∧
    (get_current_user db (logout db sess).session).response =
      Except.ok (401, Body.htmlError 401) := by
  cases hcur : currentUserOpt db sess with
  | none =>
    refine ⟨?_, ?_, ?_⟩
    · intro u hu
      exact Option.noConfusion hu
    · intro _
      simp [logout, hcur, unauthorizedResponse]
    · simp [logout, hcur, get_current_user, hcur, unauthorizedResponse]
  | some u =>
    refine ⟨?_, ?_, ?_⟩
    · intro v hv
      simp [logout, hcur]
    · intro hanon
      exact Option.noConfusion hanon
    · have h1 : (logout db sess).session = none := by simp [logout, hcur]
      rw [h1]
      simp [get_current_user, currentUserOpt, unauthorizedResponse]

/-- Witness for C2 amended: user 1 is signed in, logout clears the
session and answers 200. -/
theorem claim_C2_logout_witness :
    (logout sampleDB (some 1)).session = none ∧
    (logout sampleDB (some 1)).response =
      Except.ok (200, Body.jsonObj [("message", "Logged out")]) :=
  (claim_C2_logout sampleDB (some 1)).1 alice (by decide)

/-- C3: at the concrete failing input — alice logging in with the correct
password — the handler raises `AttributeError` evaluating
`user.to_dict()` (no model class defines `to_dict`), so no 200 profile
body, password-free or otherwise, is ever produced. -/
theorem claim_C3_no_public_view :
    (login sampleChk sampleDB none "alice@x.com" "pw123").response =
      Except.error (PyExc.attributeError "User" "to_dict") := by
  decide

/-- C4 counterexample: user 1 is authenticated against a store with no
newsletters at all; saving `newsletterId = 5` does not fail — a bookmark
row referencing the nonexistent newsletter 5 is committed, and the
response is the `to_dict` exception, not a 4xx NewsletterNotFound body. -/
theorem claim_C4_counterexample :
    (save_newsletter dbNoNewsletters (some 1) 7 5).db.user_newsletters =
      [{ id := 1, user_id := 1, newsletter_id := 5, saved_at := 7 }] ∧
    dbNoNewsletters.newsletters.filter (fun n => n.id == 5) = [] ∧
    (save_newsletter dbNoNewsletters (some 1) 7 5).response =
      Except.error (PyExc.attributeError "UserNewsletter" "to_dict") := by
  decide

/-- C4 amended: for every authenticated session and every `newsletterId`,
whether or not a newsletter with that id exists, the save handler
unconditionally commits one new bookmark row bound to the session's user
with `saved_at = now`; no existence check runs and no NewsletterNotFound
failure is produced. -/
theorem claim_C4_save_unvalidated (db : DB) (sess : Session)
    (now nid : Nat) (u : User)
    (hsess : currentUserOpt db sess = some u) :
    (save_newsletter db sess now nid).db.user_newsletters =
      db.user_newsletters ++
        [{ id := nextBookmarkId db, user_id := u.id
           newsletter_id := nid, saved_at := now }] := by
  simp [save_newsletter, hsess]

/-- Witness for C4 amended: a concrete save against the store without
newsletters. -/
theorem claim_C4_save_unvalidated_witness :
    (save_newsletter dbNoNewsletters (some 1) 7 5).db.user_newsletters =
      dbNoNewsletters.user_newsletters ++
        [{ id := nextBookmarkId dbNoNewsletters, user_id := alice.id
           newsletter_id := 5, saved_at := 7 }] :=
  claim_C4_save_unvalidated dbNoNewsletters (some 1) 7 5 alice (by decide)

/-- Truncation preserves descending order on `published_at`. -/
theorem sortedByPublishedDesc_take (n : Nat) (l : List Newsletter)
    (h : sortedByPublishedDesc l = true) :
    sortedByPublishedDesc (l.take n) = true := by
  induction l generalizing n with
  | nil => cases n <;> simp [sortedByPublishedDesc, List.take]
  | cons a t ih =>
    cases n with
    | zero => simp [sortedByPublishedDesc, List.take]
    | succ m =>
      cases t with
      | nil => cases m <;> simp [sortedByPublishedDesc, List.take]
      | cons b t2 =>
        have hsplit :
            b.published_at ≤ a.published_at ∧
              sortedByPublishedDesc (b :: t2) = true := by
          have h' := h
          simp only [sortedByPublishedDesc, Bool.and_eq_true,
            decide_eq_true_eq] at h'
          exact h'
        cases m with
        | zero => simp [sortedByPublishedDesc, List.take]
        | succ k =>
          have htail := ih (n := k + 1) hsplit.2
          simp only [List.take] at htail ⊢
          simp only [sortedByPublishedDesc, Bool.and_eq_true,
            decide_eq_true_eq]
          exact ⟨hsplit.1, by simpa [List.take] using htail⟩

/-- The store used for the C5 tie counterexample: two newsletters with
equal `published_at`. -/
def dbTie : DB :=
  { users := [], categories := [], newsletters := [n1, n2]
    user_newsletters := [] }

/-- C5 counterexample: the recent query applies no secondary sort key, so
on a store holding two newsletters with equal `published_at` both
`[n1, n2]` and `[n2, n1]` are results the storage layer may return — the
tie order is not determined, refuting that it is identical across
repeated calls. -/
theorem claim_C5_counterexample :
    ¬ (∀ out1 out2 : List Newsletter,
        recentQueryResult dbTie out1 → recentQueryResult dbTie out2 →
        out1 = out2) := by
  intro h
  have h1 : recentQueryResult dbTie [n1, n2] :=
    ⟨[n1, n2], List.Perm.refl _, by decide, by decide⟩
  have h2 : recentQueryResult dbTie [n2, n1] :=
    ⟨[n2, n1], List.Perm.swap n1 n2 [], by decide, by decide⟩
  have heq := h [n1, n2] [n2, n1] h1 h2
  exact absurd heq (by decide)

/-- C5 amended: every list the recent query may return holds at most 10
newsletters and is sorted by `published_at` descending; the tie order
among equal timestamps is not fixed by the query (see the
counterexample), since no secondary sort key is applied. -/
theorem claim_C5_recent_sorted (db : DB) (out : List Newsletter)
    (h : recentQueryResult db out) :
    out.length ≤ 10 ∧ sortedByPublishedDesc out = true := by
  obtain ⟨l, _, hsort, rfl⟩ := h
  constructor
  · rw [List.length_take]
    exact min_le_left _ _
  · exact sortedByPublishedDesc_take 10 l hsort

/-- Witness for C5 amended at a concrete query result over the tie
store. -/
theorem claim_C5_recent_sorted_witness :
    ([n1, n2] : List Newsletter).length ≤ 10 ∧
    sortedByPublishedDesc [n1, n2] = true :=
  claim_C5_recent_sorted dbTie [n1, n2]
    ⟨[n1, n2], List.Perm.refl _, by decide, by decide⟩

/-- C6: the bookmark listing for the authenticated user filters rows on
`user_id = current_user.id`, so every returned bookmark is owned by the
caller and never by another user. -/
theorem claim_C6_only_own_bookmarks (db : DB) (sess : Session) (u : User)
    (b : UserNewsletter)
    (hsess : currentUserOpt db sess = some u)
    (hb : b ∈ listForUser db u.id) : b.user_id = u.id := by
  have hmem := List.mem_filter.mp hb
  simpa using hmem.2

/-- Witness for C6: the sample bookmark returned for user 1 is owned by
user 1. -/
theorem claim_C6_only_own_bookmarks_witness : bm1.user_id = alice.id :=
  claim_C6_only_own_bookmarks sampleDB (some 1) alice bm1 (by decide)
    (by decide)

/-- C7: after an authenticated save of an existing newsletter, listing the
same user's bookmarks contains the bookmark just created, referencing
that newsletter. -/
theorem claim_C7_save_then_list (db : DB) (sess : Session)
    (now nid : Nat) (u : User)
    (hsess : currentUserOpt db sess = some u)
    (hex : ∃ n ∈ db.newsletters, n.id = nid) :
    ∃ b ∈ listForUser (save_newsletter db sess now nid).db u.id,
      b.newsletter_id = nid := by
  refine ⟨{ id := nextBookmarkId db, user_id := u.id
            newsletter_id := nid, saved_at := now }, ?_, rfl⟩
  simp [save_newsletter, hsess, listForUser, List.mem_filter]

/-- Witness for C7: user 1 saves newsletter 1 and finds it in the
listing. -/
theorem claim_C7_save_then_list_witness :
    ∃ b ∈ listForUser (save_newsletter sampleDB (some 1) 7 1).db alice.id,
      b.newsletter_id = 1 :=
  claim_C7_save_then_list sampleDB (some 1) 7 1 alice (by decide)
    ⟨n1, by decide, by decide⟩

/-- C8 counterexample: an anonymous request to the protected bookmark
listing is answered by the `login_required` guard with the framework's
default 401 page, which is not a JSON object with a `message` field —
refuting that every failure response of the application is one. -/
theorem claim_C8_counterexample :
    (get_user_newsletters sampleDB none).response =
      Except.ok (401, Body.htmlError 401) ∧
    Body.isJsonWithMessage (Body.htmlError 401) = false := by
  decide

/-- C8 amended: the failure body the application code itself builds — the
login handler's 401 — is a JSON object with a `message` field; but the
401 an anonymous request to a protected route (logout, me, list
bookmarks, save) receives comes from the guard's `abort(401)` and is the
framework's HTML error page, which carries no JSON `message` field. -/
theorem claim_C8_failure_bodies (chk : String → String → Bool) (db : DB)
    (sess : Session) (email password : String) (now nid : Nat)
    (hanon : currentUserOpt db sess = none)
    (hmm : ∀ u : User, findByEmail db.users email = some u →
      chk u.password password = false) :
    ((login chk db sess email password).response =
        Except.ok (401, Body.jsonObj [("message", "Invalid credentials")]) ∧
      Body.isJsonWithMessage
        (Body.jsonObj [("message", "Invalid credentials")]) = true) ∧
    (logout db sess).response = Except.ok (401, Body.htmlError 401) ∧
    (get_current_user db sess).response =
      Except.ok (401, Body.htmlError 401) ∧
    (get_user_newsletters db sess).response =
      Except.ok (401, Body.htmlError 401) ∧
    (save_newsletter db sess now nid).response =
      Except.ok (401, Body.htmlError 401) ∧
    Body.isJsonWithMessage (Body.htmlError 401) = false := by
  refine ⟨⟨?_, by decide⟩, ?_, ?_, ?_, ?_, by decide⟩
  · cases hf : findByEmail db.users email with
    | none => simp [login, hf]
    | some w => simp [login, hf, hmm w hf]
  · simp [logout, hanon, unauthorizedResponse]
  · simp [get_current_user, hanon, unauthorizedResponse]
  · simp [get_user_newsletters, hanon, unauthorizedResponse]
  · simp [save_newsletter, hanon, unauthorizedResponse]

/-- Witness for C8 amended: a wrong-password login and an anonymous
request against the sample store. -/
theorem claim_C8_failure_bodies_witness :
    ((login sampleChk sampleDB none "alice@x.com" "wrong").response =
        Except.ok (401, Body.jsonObj [("message", "Invalid credentials")]) ∧
      Body.isJsonWithMessage
        (Body.jsonObj [("message", "Invalid credentials")]) = true) ∧
    (logout sampleDB none).response = Except.ok (401, Body.htmlError 401) ∧
    (get_current_user sampleDB none).response =
      Except.ok (401, Body.htmlError 401) ∧
    (get_user_newsletters sampleDB none).response =
      Except.ok (401, Body.htmlError 401) ∧
    (save_newsletter sampleDB none 7 1).response =
      Except.ok (401, Body.htmlError 401) ∧
    Body.isJsonWithMessage (Body.htmlError 401) = false :=
  claim_C8_failure_bodies sampleChk sampleDB none "alice@x.com" "wrong" 7 1
    (by decide) (by decide)

/-- C9: no model class defines `to_dict` — its attributes are exactly the
declared columns — so each route whose handler reaches entity
serialization (a successful login, me for an authenticated session,
featured/recent/categories on nonempty results, the authenticated
bookmark listing on a nonempty result, and every authenticated save)
raises `AttributeError` instead of returning its 200 JSON body. -/
theorem claim_C9_to_dict_missing (chk : String → String → Bool) (db : DB)
    (sess : Session) (email password : String) (now nid : Nat)
    (u v : User) (out : List Newsletter)
    (hlogin : findByEmail db.users email = some u)
    (hpw : chk u.password password = true)
    (hsess : currentUserOpt db sess = some v)
    (hfeat : db.newsletters.filter (fun n => n.featured) ≠ [])
    (hrec : recentQueryResult db out) (hout : out ≠ [])
    (hcat : db.categories ≠ [])
    (hbm : listForUser db v.id ≠ []) :
    userAttrs.contains "to_dict" = false ∧
    categoryAttrs.contains "to_dict" = false ∧
    newsletterAttrs.contains "to_dict" = false ∧
    userNewsletterAttrs.contains "to_dict" = false ∧
    (login chk db sess email password).response =
      Except.error (PyExc.attributeError "User" "to_dict") ∧
    (get_current_user db sess).response =
      Except.error (PyExc.attributeError "User" "to_dict") ∧
    (get_featured_newsletters db sess).response =
      Except.error (PyExc.attributeError "Newsletter" "to_dict") ∧
    (get_recent_newsletters db sess out).response =
      Except.error (PyExc.attributeError "Newsletter" "to_dict") ∧
    (get_categories db sess).response =
      Except.error (PyExc.attributeError "Category" "to_dict") ∧
    (get_user_newsletters db sess).response =
      Except.error (PyExc.attributeError "UserNewsletter" "to_dict") ∧
    (save_newsletter db sess now nid).response =
      Except.error (PyExc.attributeError "UserNewsletter" "to_dict") := by
  refine ⟨by decide, by decide, by decide, by decide, ?_, ?_, ?_, ?_, ?_, ?_, ?_⟩
  · simp [login, hlogin, hpw, to_dict, userAttrs, Except.map]
  · simp [get_current_user, hsess, to_dict, userAttrs, Except.map]
  · obtain ⟨a, t, hft⟩ := List.exists_cons_of_ne_nil hfeat
    simp [get_featured_newsletters, hft, to_dict_each, to_dict,
      newsletterAttrs, Except.map]
  · obtain ⟨a, t, hot⟩ := List.exists_cons_of_ne_nil hout
    simp [get_recent_newsletters, hot, to_dict_each, to_dict,
      newsletterAttrs, Except.map]
  · obtain ⟨a, t, hct⟩ := List.exists_cons_of_ne_nil hcat
    simp [get_categories, hct, to_dict_each, to_dict, categoryAttrs,
      Except.map]
  · obtain ⟨a, t, hbt⟩ := List.exists_cons_of_ne_nil hbm
    simp [get_user_newsletters, hsess, hbt, to_dict_each, to_dict,
      userNewsletterAttrs, Except.map]
  · simp [save_newsletter, hsess, to_dict, userNewsletterAttrs, Except.map]

/-- Witness for C9 against the populated sample store. -/
theorem claim_C9_to_dict_missing_witness :
    userAttrs.contains "to_dict" = false ∧
    categoryAttrs.contains "to_dict" = false ∧
    newsletterAttrs.contains "to_dict" = false ∧
    userNewsletterAttrs.contains "to_dict" = false ∧
    (login sampleChk sampleDB (some 1) "alice@x.com" "pw123").response =
      Except.error (PyExc.attributeError "User" "to_dict") ∧
    (get_current_user sampleDB (some 1)).response =
      Except.error (PyExc.attributeError "User" "to_dict") ∧
    (get_featured_newsletters sampleDB (some 1)).response =
      Except.error (PyExc.attributeError "Newsletter" "to_dict") ∧
    (get_recent_newsletters sampleDB (some 1) [n1, n2]).response =
      Except.error (PyExc.attributeError "Newsletter" "to_dict") ∧
    (get_categories sampleDB (some 1)).response =
      Except.error (PyExc.attributeError "Category" "to_dict") ∧
    (get_user_newsletters sampleDB (some 1)).response =
      Except.error (PyExc.attributeError "UserNewsletter" "to_dict") ∧
    (save_newsletter sampleDB (some 1) 7 1).response =
      Except.error (PyExc.attributeError "UserNewsletter" "to_dict") :=
  claim_C9_to_dict_missing sampleChk sampleDB (some 1) "alice@x.com" "pw123"
    7 1 alice alice [n1, n2] (by decide) (by decide) (by decide) (by decide)
    ⟨[n1, n2], List.Perm.refl _, by decide, by decide⟩ (by decide) (by decide)
    (by decide)

/-- The login handler never touches the bookmark table. -/
theorem login_db_unchanged (chk : String → String → Bool) (db : DB)
    (sess : Session) (email password : String) :
    (login chk db sess email password).db = db := by
  cases hf : findByEmail db.users email with
  | none => simp [login, hf]
  | some w =>
    by_cases hchk : chk w.password password
    · simp [login, hf, hchk]
    · simp [login, hf, hchk]

/-- The logout handler never touches the store. -/
theorem logout_db_unchanged (db : DB) (sess : Session) :
    (logout db sess).db = db := by
  cases hcur : currentUserOpt db sess <;> simp [logout, hcur]

/-- The me handler never touches the store. -/
theorem me_db_unchanged (db : DB) (sess : Session) :
    (get_current_user db sess).db = db := by
  cases hcur : currentUserOpt db sess <;> simp [get_current_user, hcur]

/-- The bookmark-listing handler never touches the store. -/
theorem list_db_unchanged (db : DB) (sess : Session) :
    (get_user_newsletters db sess).db = db := by
  cases hcur : currentUserOpt db sess <;> simp [get_user_newsletters, hcur]

/-- C10: across any single dispatched request — and hence across any
sequence of them — a bookmark row present afterwards either already
existed or was created by an authenticated save, and then its `user_id`
is the id of the user the session was authenticated as at that moment
(request input supplies only the newsletter id). -/
theorem claim_C10_bookmark_owner (chk : String → String → Bool)
    (st : AppState) (op : Op) (b : UserNewsletter)
    (hb : b ∈ (runOp chk st op).db.user_newsletters) :
    b ∈ st.db.user_newsletters ∨
      ∃ now nid u, op = Op.saveOp now nid ∧
        currentUserOpt st.db st.session = some u ∧
        b.user_id = u.id ∧ b.newsletter_id = nid ∧ b.saved_at = now := by
  cases op with
  | loginOp email password =>
    left
    rw [runOp, login_db_unchanged] at hb
    exact hb
  | logoutOp =>
    left
    rw [runOp, logout_db_unchanged] at hb
    exact hb
  | meOp =>
    left
    rw [runOp, me_db_unchanged] at hb
    exact hb
  | featuredOp =>
    left
    exact hb
  | recentOp out =>
    left
    exact hb
  | categoriesOp =>
    left
    exact hb
  | listBookmarksOp =>
    left
    rw [runOp, list_db_unchanged] at hb
    exact hb
  | saveOp now nid =>
    cases hcur : currentUserOpt st.db st.session with
    | none =>
      left
      rw [runOp] at hb
      simp only [save_newsletter, hcur] at hb
      exact hb
    | some u =>
      rw [runOp] at hb
      simp only [save_newsletter, hcur] at hb
      rw [List.mem_append] at hb
      rcases hb with hb | hb
      · exact Or.inl hb
      · right
        rw [List.mem_singleton] at hb
        subst hb
        exact ⟨now, nid, u, rfl, rfl, rfl, rfl, rfl⟩

/-- Witness for C10: the row created by a concrete authenticated save is
owned by the session's user. -/
theorem claim_C10_bookmark_owner_witness :
    ({ id := 2, user_id := 1, newsletter_id := 1, saved_at := 7 } :
        UserNewsletter) ∈ sampleDB.user_newsletters ∨
      ∃ now nid u,
        (Op.saveOp 7 1 : Op) = Op.saveOp now nid ∧
        currentUserOpt sampleDB (some 1) = some u ∧
        (1 : Nat) = u.id ∧ (1 : Nat) = nid ∧ (7 : Nat) = now :=
  claim_C10_bookmark_owner sampleChk ⟨sampleDB, some 1⟩ (Op.saveOp 7 1)
    { id := 2, user_id := 1, newsletter_id := 1, saved_at := 7 } (by decide)

end Podstack
